import Mathlib

/-!
Verification of the aerospace-ipc client library (Go) against its
natural-language specification.

The Go sources are shallowly embedded: pure command-building and
response-policy logic becomes Lean functions, Go errors become an
inductive `GoErr` (one constructor per distinct error site shape),
the socket transport becomes an explicit function argument
`SendFn`, and the chunk-accumulating read loop of `SendCommand`
becomes a recursion over a list of read events.  Go runtime panics
(out-of-range indexing) are modelled by an explicit outcome
constructor rather than being smoothed over.
-/

set_option linter.unusedVariables false

namespace AerospaceIPC

/-- Go errors.  `fmt.Errorf` sites that only build a message are `str`;
sites with a recognisable shape that claims talk about get their own
constructor.  `wrap` models `fmt.Errorf("...%w", err)`. -/
inductive GoErr where
  | str (msg : String)
  | versionMismatch (minMajor minMinor : Int) (current : String)
  | exitCodeFailure (code : Int) (stderr : String)
  | stderrFailure (stderr : String)
  | opFailure (opMsg : String) (stderr : String)
  | wrap (msg : String) (inner : GoErr)
  deriving Repr, DecidableEq

/-- Models `errors.Is(err, exceptions.ErrVersion)`: the `Is` method of
`ErrVersionMismatch` identity-matches the `ErrVersion` sentinel, and
`errors.Is` unwraps `%w` chains. -/
def goErrIsVersionSentinel : GoErr → Bool
  | .versionMismatch _ _ _ => true
  | .wrap _ e => goErrIsVersionSentinel e
  | _ => false

/-- The `Response` JSON envelope from the AeroSpace socket
(`serverVersionAndHash`, `stderr`, `stdout`, `exitCode`). -/
structure Response where
  serverVersion : String
  stdErr : String
  stdOut : String
  exitCode : Int
  deriving Repr, DecidableEq

/-! ## Models of the Go standard-library helpers used by the client -/

/-- Model of `strings.Split` with a one-character separator, on the character
list of the string (both separators used by the client, `"-"` and
`"."`, are single characters).  Like Go, the result is never empty
and splitting the empty string yields `[""]`. -/
def splitCharList (sep : Char) : List Char → List (List Char)
  | [] => [[]]
  | c :: rest =>
      if c = sep then [] :: splitCharList sep rest
      else
        match splitCharList sep rest with
        | [] => [[c]]
        | h :: t => (c :: h) :: t

/-- Model of `strings.Split(s, sep)` for a one-character `sep`. -/
def goSplit (sep : Char) (s : String) : List String :=
  (splitCharList sep s.data).map (fun cs => String.mk cs)

/-- Model of `strings.Join(parts, sep)`. -/
def goJoin (sep : String) : List String → String
  | [] => ""
  | [s] => s
  | s :: rest => s ++ sep ++ goJoin sep rest

def isDigitChar (c : Char) : Bool := 48 ≤ c.toNat && c.toNat ≤ 57

def atoiDigits (cs : List Char) : Option Int :=
  if cs = [] then none
  else if cs.all isDigitChar then
    some (cs.foldl (fun acc c => acc * 10 + ((c.toNat : Int) - 48)) 0)
  else none

/-- Model of `strconv.Atoi`: optional sign followed by at least one decimal
digit (the version numbers involved are far below the `int` overflow
bound, which is therefore not modelled). -/
def goAtoi (s : String) : Option Int :=
  match s.data with
  | '-' :: rest => (atoiDigits rest).map (fun n => -n)
  | '+' :: rest => atoiDigits rest
  | cs => atoiDigits cs

def digitChars : List Char := ['0', '1', '2', '3', '4', '5', '6', '7', '8', '9']

def digitChar (d : Nat) : Char := digitChars.getD d '0'

/-- Decimal digits of `n`, most significant first; the first argument
is fuel (`n` itself always suffices). -/
def natToCharsAux : Nat → Nat → List Char
  | 0, _ => []
  | fuel + 1, n =>
      if n = 0 then []
      else natToCharsAux fuel (n / 10) ++ [digitChar (n % 10)]

def goSprintfNat (n : Nat) : String :=
  if n = 0 then "0" else String.mk (natToCharsAux n n)

/-- Model of `fmt.Sprintf("%d", i)` for a Go `int`. -/
def goSprintfInt : Int → String
  | .ofNat n => goSprintfNat n
  | .negSucc n => "-" ++ goSprintfNat (n + 1)

/-! ## pkg/client/socket.go : the socket connection -/

/-- How one evaluation of `CheckServerVersion` ends: success, a
returned error, or a Go runtime panic (the out-of-range access
`versionParts[1]` when the version has fewer than two dot-separated
components). -/
inductive CheckOutcome where
  | ok
  | err (e : GoErr)
  | panicked
  deriving Repr, DecidableEq

/-- Result of `CheckServerVersion` evaluated on a retrieved server
version string: whether the non-fatal `[WARN]` line was printed, and
how the call ended. -/
structure CheckResult where
  warned : Bool
  outcome : CheckOutcome
  deriving Repr, DecidableEq

/-- The `versionParts` computed by `CheckServerVersion`: split the
server version string on `"-"`, take the part before the first `-`
(`parts[0]`), split it on `"."`. -/
def versionComponents (serverVersion : String) : List String :=
  goSplit '.' ((goSplit '-' serverVersion).headD "")

/-- Model of `AeroSpaceSocketConnection.CheckServerVersion`, as a function of
the `(MinMajorVersion, MinMinorVersion)` pair and the
server version string retrieved by `GetServerVersion`.  Mirrors the
Go body line by line: empty-string check, split on `"-"` and `"."`
(`versionComponents`), format warning when fewer than two
components, `strconv.Atoi` of components 0 and 1 (the latter panics
when absent), then the equality-based comparison producing
`exceptions.NewErrVersionMismatch`. -/
def checkServerVersion (minMajor minMinor : Int) (serverVersion : String) : CheckResult :=
  if serverVersion = "" then
    { warned := false, outcome := .err (.str "server version is empty") }
  else
    let versionParts := versionComponents serverVersion
    let warned : Bool := versionParts.length < 2
    match goAtoi (versionParts.headD "") with
    | none =>
        { warned := warned
          outcome := .err (.str ("failed to parse major version from " ++ serverVersion)) }
    | some intMajor =>
      match versionParts[1]? with
      | none => { warned := warned, outcome := .panicked }
      | some minorStr =>
        match goAtoi minorStr with
        | none =>
            { warned := warned
              outcome := .err (.str ("failed to parse minor version from " ++ serverVersion)) }
        | some intMinor =>
            if intMajor ≠ minMajor ∨ (intMajor = minMajor ∧ intMinor ≠ minMinor) then
              { warned := warned
                outcome := .err (.versionMismatch minMajor minMinor (goJoin "." versionParts)) }
            else
              { warned := warned, outcome := .ok }

/-- The parsed major component of a server version string. -/
def majorOf (serverVersion : String) : Option Int :=
  goAtoi ((versionComponents serverVersion).headD "")

/-- The parsed minor component of a server version string (when the
component exists and parses). -/
def minorOf (serverVersion : String) : Option Int :=
  (versionComponents serverVersion)[1]?.bind goAtoi

/-- The fields of `AeroSpaceSocketConnection` relevant to the claims
(the mutex and the live `net.Conn` handle are abstracted away). -/
structure AeroSpaceSocketConnection where
  socketPath : String
  MinMajorVersion : Int
  MinMinorVersion : Int
  deriving Repr, DecidableEq

/-- Model of `NewAeroSpaceSocketConnection`: rejects an empty socket path,
then dials (the dial outcome is an explicit parameter since the
network is external), and on success builds the connection record
with the hard-coded requirement `MinMajorVersion = 1`,
`MinMinorVersion = 0`. -/
def newAeroSpaceSocketConnection (socketPath : String) (dialErr : Option GoErr) :
    Except GoErr AeroSpaceSocketConnection :=
  if socketPath = "" then .error (.str "socket path cannot be empty")
  else
    match dialErr with
    | some e => .error (.wrap "failed to connect to socket" e)
    | none =>
        .ok { socketPath := socketPath, MinMajorVersion := 1, MinMinorVersion := 0 }

/-! ### The read loop and response policy of `SendCommand` -/

/-- The buffer capacity offered to each `Conn.Read` call. -/
def bufSize : Nat := 4096

/-- What a single `Conn.Read(buf)` call can signal besides bytes:
nothing, end of stream (`io.EOF`), or another I/O error. -/
inductive IOSignal where
  | eof
  | fail (e : GoErr)
  deriving Repr, DecidableEq

/-- One `Conn.Read` result: the bytes copied into the buffer (at most
`bufSize` of them in any physically possible event) and the optional
error returned alongside. -/
abbrev ReadEvent := List Nat × Option IOSignal

/-- The read-accumulation loop of `SendCommand`: read, break on
`io.EOF` (discarding any bytes delivered together with it, exactly as
the Go code does), fail on any other read error (attaching the bytes
accumulated so far), append the bytes read, and stop as soon as a
read returns fewer bytes than the buffer offers.  `none` means the
stream ran out of events without the loop exiting (a blocked read). -/
def readLoop : List ReadEvent → List Nat → Option (Except GoErr (List Nat))
  | [], _ => none
  | (_, some .eof) :: _, acc => some (.ok acc)
  | (_, some (.fail e)) :: _, acc => some (.error (.wrap "failed to read response" e))
  | (bs, none) :: rest, acc =>
      if bs.length < bufSize then some (.ok (acc ++ bs))
      else readLoop rest (acc ++ bs)

/-- The post-decode policy of `SendCommand`: a non-zero exit code is
an error carrying the code and stderr; otherwise non-empty stderr is
a distinct error carrying just the stderr; otherwise the envelope is
returned as success. -/
def sendCommandPolicy (r : Response) : Except GoErr Response :=
  if r.exitCode ≠ 0 then .error (.exitCodeFailure r.exitCode r.stdErr)
  else if r.stdErr ≠ "" then .error (.stderrFailure r.stdErr)
  else .ok r

/-- Model of `SendCommand` after the command has been marshalled: the
not-established check, the write, the read loop, the JSON decode
(`decode` is a parameter — the JSON codec is external to the claims),
and the response policy. -/
def sendCommandModel (connEstablished : Bool) (writeErr : Option GoErr)
    (stream : List ReadEvent) (decode : List Nat → Option Response) :
    Option (Except GoErr Response) :=
  if !connEstablished then some (.error (.str "connection is not established"))
  else
    match writeErr with
    | some e => some (.error (.wrap "failed to send command" e))
    | none =>
      match readLoop stream [] with
      | none => none
      | some (.error e) => some (.error e)
      | some (.ok bytes) =>
        match decode bytes with
        | none => some (.error (.str "failed to unmarshal socket response"))
        | some r => some (sendCommandPolicy r)

/-! ## Domain command builders

Each builder is parameterised by the transport (`SendFn`, the
`AeroSpaceConnection.SendCommand` method of the injected client) and
returns both its result and the list of transport calls it made, so
that "no transport call occurs" is the statement that the trace is
empty. -/

/-- The injected `client.AeroSpaceConnection.SendCommand`. -/
abbrev SendFn := String → List String → Except GoErr Response

/-- The transport calls a builder performed: `(command, args)` pairs. -/
abbrev Trace := List (String × List String)

/-! ### pkg/aerospace/windows : SetFocus / SetLayout -/

/-- The struct `windows.SetFocusArgs`: exactly one of the four fields is supposed
to be set. -/
structure SetFocusArgs where
  WindowID : Option Int
  Direction : Option String
  DFSDirection : Option String
  DFSIndex : Option Int
  deriving Repr, DecidableEq

/-- The struct `windows.SetFocusOpts`. -/
structure SetFocusOpts where
  IgnoreFloating : Bool
  Boundaries : Option String
  BoundariesAction : Option String
  deriving Repr, DecidableEq

/-- The number of focus modes set in `args` (the `count` variable of
`SetFocusWithOpts`). -/
def focusModesCount (args : SetFocusArgs) : Nat :=
  (if args.WindowID.isSome then 1 else 0) +
  (if args.Direction.isSome then 1 else 0) +
  (if args.DFSDirection.isSome then 1 else 0) +
  (if args.DFSIndex.isSome then 1 else 0)

/-- The validation and argument-vector construction of
`Service.SetFocusWithOpts`, up to (but not including) the transport
call: on success, the built `cmdArgs` together with the prepared
`errorMsg`.  Mirrors the Go body: the count checks, the
window-id / direction / dfs-direction / dfs-index chain, then the
unconditional `--ignore-floating` append and the mode-gated
`--boundaries` and `--boundaries-action` appends. -/
def setFocusBuild (args : SetFocusArgs) (opts : SetFocusOpts) :
    Except GoErr (List String × String) :=
  if focusModesCount args = 0 then
    .error (.str "exactly one of WindowID, Direction, DFSDirection, or DFSIndex must be set")
  else if focusModesCount args > 1 then
    .error (.str "only one of WindowID, Direction, DFSDirection, or DFSIndex can be set")
  else
    let base : List String × String :=
      match args.WindowID with
      | some w =>
          (["--window-id", goSprintfInt w], "failed to focus window with ID " ++ goSprintfInt w)
      | none =>
        match args.Direction with
        | some d => ([d], "failed to focus window in direction " ++ d)
        | none =>
          match args.DFSDirection with
          | some d => ([d], "failed to focus window using DFS direction " ++ d)
          | none =>
            match args.DFSIndex with
            | some i =>
                (["--dfs-index", goSprintfInt i],
                 "failed to focus window with DFS index " ++ goSprintfInt i)
            | none => ([], "")
    let cmdArgs := base.1
    let cmdArgs := if opts.IgnoreFloating then cmdArgs ++ ["--ignore-floating"] else cmdArgs
    let cmdArgs :=
      match opts.Boundaries with
      | some b =>
          if args.Direction.isSome || args.DFSDirection.isSome then
            cmdArgs ++ ["--boundaries", b]
          else cmdArgs
      | none => cmdArgs
    let cmdArgs :=
      match opts.BoundariesAction with
      | some b =>
          if args.Direction.isSome || args.DFSDirection.isSome then
            cmdArgs ++ ["--boundaries-action", b]
          else cmdArgs
      | none => cmdArgs
    .ok (cmdArgs, base.2)

/-- Model of `Service.SetFocusWithOpts`: build, send `focus`, convert a
non-zero exit code into the prepared domain error with the daemon
stderr text, propagate a transport error unchanged. -/
def setFocusWithOpts (send : SendFn) (args : SetFocusArgs) (opts : SetFocusOpts) :
    Except GoErr Unit × Trace :=
  match setFocusBuild args opts with
  | .error e => (.error e, [])
  | .ok (cmdArgs, errorMsg) =>
    match send "focus" cmdArgs with
    | .error e => (.error e, [("focus", cmdArgs)])
    | .ok r =>
        if r.exitCode ≠ 0 then (.error (.opFailure errorMsg r.stdErr), [("focus", cmdArgs)])
        else (.ok (), [("focus", cmdArgs)])

/-- Model of `Service.SetFocus`: delegates to `SetFocusWithOpts` with zero-value
options. -/
def setFocus (send : SendFn) (args : SetFocusArgs) : Except GoErr Unit × Trace :=
  setFocusWithOpts send args { IgnoreFloating := false, Boundaries := none, BoundariesAction := none }

/-- The struct `windows.SetLayoutArgs`. -/
structure SetLayoutArgs where
  Layouts : List String
  deriving Repr, DecidableEq

/-- The struct `windows.SetLayoutOpts` (also `layout.SetLayoutOpts`). -/
structure SetLayoutOpts where
  WindowID : Option Int
  deriving Repr, DecidableEq

/-- Renders a Go `[]string` the way the `%v` verb of `fmt` does. -/
def goSprintfStrSlice (xs : List String) : String :=
  "[" ++ goJoin " " xs ++ "]"

/-- Model of `windows.Service.SetLayoutWithOpts`: empty-layout check, argument
vector `layouts... [--window-id <id>]`, then a single transport call
whose error is wrapped; the response envelope itself is discarded
(`if _, err := ...`), so its exit code is never examined. -/
def setLayoutWithOpts (send : SendFn) (args : SetLayoutArgs) (opts : SetLayoutOpts) :
    Except GoErr Unit × Trace :=
  if args.Layouts = [] then (.error (.str "at least one layout must be provided"), [])
  else
    let cmdArgs := args.Layouts ++
      (match opts.WindowID with
       | some w => ["--window-id", goSprintfInt w]
       | none => [])
    match send "layout" cmdArgs with
    | .error e =>
        (.error (.wrap ("failed to set layout(s) " ++ goSprintfStrSlice args.Layouts ++ "\nReason:") e),
         [("layout", cmdArgs)])
    | .ok _ => (.ok (), [("layout", cmdArgs)])

/-- Model of `windows.Service.SetLayout`: delegates to `SetLayoutWithOpts` with
zero-value options. -/
def setLayout (send : SendFn) (args : SetLayoutArgs) : Except GoErr Unit × Trace :=
  setLayoutWithOpts send args { WindowID := none }

/-! ### pkg/aerospace/layout : SetLayout -/

/-- Model of `layout.Service.SetLayout` (variadic opts normalised to the
optional window id of the first element): empty-layout check, the
same argument vector, transport error wrapped, and — unlike the
windows variant — a non-zero exit code converted into a domain error
embedding the daemon stderr text. -/
def layoutSetLayout (send : SendFn) (layouts : List String) (optWindowID : Option Int) :
    Except GoErr Unit × Trace :=
  if layouts = [] then (.error (.str "at least one layout must be provided"), [])
  else
    let cmdArgs := layouts ++
      (match optWindowID with
       | some w => ["--window-id", goSprintfInt w]
       | none => [])
    match send "layout" cmdArgs with
    | .error e =>
        (.error (.wrap ("failed to set layout(s) " ++ goSprintfStrSlice layouts ++ ": ") e),
         [("layout", cmdArgs)])
    | .ok r =>
        if r.exitCode ≠ 0 then
          (.error (.opFailure ("failed to set layout(s) " ++ goSprintfStrSlice layouts) r.stdErr),
           [("layout", cmdArgs)])
        else (.ok (), [("layout", cmdArgs)])

/-! ### pkg/aerospace/workspaces : MoveWindowToWorkspace / MoveWorkspaceToMonitor -/

/-- The struct `workspaces.MoveWindowToWorkspaceArgs`. -/
structure MoveWindowToWorkspaceArgs where
  WorkspaceName : String
  deriving Repr, DecidableEq

/-- The struct `workspaces.MoveWindowToWorkspaceOpts`. -/
structure MoveWindowToWorkspaceOpts where
  WindowID : Option Int
  FocusFollowsWindow : Bool
  FailIfNoop : Bool
  WrapAround : Bool
  Stdin : Bool
  NoStdin : Bool
  deriving Repr, DecidableEq

/-- Model of `Service.MoveWindowToWorkspaceWithOpts`: the `--stdin`/`--no-stdin`
exclusivity check before anything else, then the argument vector with
the workspace name first and the flags in the fixed order of the Go
body, one transport call, exit-code conversion, transport error
propagated unchanged. -/
def moveWindowToWorkspaceWithOpts (send : SendFn) (args : MoveWindowToWorkspaceArgs)
    (opts : MoveWindowToWorkspaceOpts) : Except GoErr Unit × Trace :=
  if opts.Stdin && opts.NoStdin then
    (.error (.str "cannot specify both --stdin and --no-stdin options"), [])
  else
    let cmdArgs := [args.WorkspaceName] ++
      (match opts.WindowID with
       | some w => ["--window-id", goSprintfInt w]
       | none => []) ++
      (if opts.FocusFollowsWindow then ["--focus-follows-window"] else []) ++
      (if opts.FailIfNoop then ["--fail-if-noop"] else []) ++
      (if opts.WrapAround then ["--wrap-around"] else []) ++
      (if opts.Stdin then ["--stdin"] else []) ++
      (if opts.NoStdin then ["--no-stdin"] else [])
    match send "move-node-to-workspace" cmdArgs with
    | .error e => (.error e, [("move-node-to-workspace", cmdArgs)])
    | .ok r =>
        if r.exitCode ≠ 0 then
          (.error (.opFailure "failed to move window to workspace" r.stdErr),
           [("move-node-to-workspace", cmdArgs)])
        else (.ok (), [("move-node-to-workspace", cmdArgs)])

/-- The struct `workspaces.MoveWorkspaceToMonitorArgs`: the fields exactly as the
body of `MoveWorkspaceToMonitor` reads them (the struct declaration
itself sits in a file not included in the sources; its shape is fully
determined by the function body and its tests). -/
structure MoveWorkspaceToMonitorArgs where
  Direction : String
  Order : String
  Patterns : List String
  deriving Repr, DecidableEq

/-- The struct `workspaces.MoveWorkspaceToMonitorOpts`, fields as read by the
function body. -/
structure MoveWorkspaceToMonitorOpts where
  Workspace : Option String
  WrapAround : Bool
  deriving Repr, DecidableEq

/-- The `modesSet` counter of `MoveWorkspaceToMonitor`. -/
def monitorModesCount (args : MoveWorkspaceToMonitorArgs) : Nat :=
  (if args.Direction ≠ "" then 1 else 0) +
  (if args.Order ≠ "" then 1 else 0) +
  (if args.Patterns.length > 0 then 1 else 0)

/-- Model of `Service.MoveWorkspaceToMonitor`: mode-count validation with its
two distinct error messages, direction and order enum validation,
then the argument vector (optional `--workspace` and `--wrap-around`
flags before the positional mode tokens), one transport call,
exit-code conversion, transport error propagated unchanged. -/
def moveWorkspaceToMonitor (send : SendFn) (args : MoveWorkspaceToMonitorArgs)
    (opts : MoveWorkspaceToMonitorOpts) : Except GoErr Unit × Trace :=
  if monitorModesCount args = 0 then
    (.error (.str "must specify exactly one of: Direction, Order, or Patterns"), [])
  else if monitorModesCount args > 1 then
    (.error (.str "cannot specify multiple modes; must specify exactly one of: Direction, Order, or Patterns"), [])
  else if args.Direction ≠ "" ∧ ¬ (["left", "down", "up", "right"].contains args.Direction) then
    (.error (.str ("invalid direction \"" ++ args.Direction ++ "\", must be one of: left, down, up, right")), [])
  else if args.Order ≠ "" ∧ args.Order ≠ "next" ∧ args.Order ≠ "prev" then
    (.error (.str ("invalid order \"" ++ args.Order ++ "\", must be one of: next, prev")), [])
  else
    let cmdArgs :=
      (match opts.Workspace with
       | some w => ["--workspace", w]
       | none => []) ++
      (if opts.WrapAround then ["--wrap-around"] else []) ++
      (if args.Direction ≠ "" then [args.Direction]
       else if args.Order ≠ "" then [args.Order]
       else args.Patterns)
    match send "move-workspace-to-monitor" cmdArgs with
    | .error e => (.error e, [("move-workspace-to-monitor", cmdArgs)])
    | .ok r =>
        if r.exitCode ≠ 0 then
          (.error (.opFailure "failed to move workspace to monitor" r.stdErr),
           [("move-workspace-to-monitor", cmdArgs)])
        else (.ok (), [("move-workspace-to-monitor", cmdArgs)])

/-! ## Shared helper lemmas -/

theorem digitChar_isDigitChar (d : Nat) : isDigitChar (digitChar d) = true := by
  by_cases h : d < 10
  · interval_cases d <;> rfl
  · unfold digitChar
    rw [List.getD_eq_default]
    · rfl
    · simp only [digitChars, List.length_cons, List.length_nil]
      omega

theorem natToCharsAux_digits (fuel n : Nat) :
    (natToCharsAux fuel n).all isDigitChar = true := by
  induction fuel generalizing n with
  | zero => rfl
  | succ fuel ih =>
      unfold natToCharsAux
      by_cases h : n = 0
      · simp [h]
      · simp only [h, if_false, List.all_append, List.all_cons, List.all_nil]
        rw [ih, digitChar_isDigitChar]
        rfl

theorem goSprintfNat_digits (n : Nat) :
    (goSprintfNat n).data.all isDigitChar = true := by
  unfold goSprintfNat
  by_cases h : n = 0
  · subst h
    rfl
  · simp only [h, if_false]
    exact natToCharsAux_digits n n

/-- The rendering `fmt.Sprintf("%d", i)` never yields a string whose first two
characters are both `-`; in particular it never collides with a
`--flag` token. -/
theorem goSprintfInt_ne_ddash (i : Int) (s : String) (c : List Char)
    (hs : s.data = '-' :: '-' :: c) : goSprintfInt i ≠ s := by
  intro h
  rcases i with n | n
  · have hd : (goSprintfNat n).data.all isDigitChar = true := goSprintfNat_digits n
    rw [show goSprintfInt (Int.ofNat n) = goSprintfNat n from rfl] at h
    rw [h, hs] at hd
    simp [isDigitChar] at hd
  · have hd : (goSprintfNat (n + 1)).data.all isDigitChar = true := goSprintfNat_digits (n + 1)
    have h2 : (goSprintfInt (Int.negSucc n)).data = '-' :: (goSprintfNat (n + 1)).data := by
      show (("-" : String) ++ goSprintfNat (n + 1)).data = _
      rw [String.data_append]
      rfl
    rw [h, hs] at h2
    have : (goSprintfNat (n + 1)).data = '-' :: c := by
      exact (List.cons.injEq _ _ _ _).mp h2.symm |>.2
    rw [this] at hd
    simp [isDigitChar] at hd

/-- The read loop over a chunked delivery in which every chunk except
the last fills the whole buffer, followed by an end-of-stream signal,
accumulates the concatenation of the chunks. -/
theorem readLoop_chunked (chunks : List (List Nat))
    (h1 : chunks ≠ [])
    (h2 : ∀ c ∈ chunks.dropLast, c.length = bufSize) :
    ∀ acc : List Nat,
      readLoop (chunks.map (fun c => (c, (none : Option IOSignal))) ++ [([], some .eof)]) acc
        = some (.ok (acc ++ chunks.flatten)) := by
  induction chunks with
  | nil => exact absurd rfl h1
  | cons c cs ih =>
      intro acc
      cases cs with
      | nil =>
          by_cases hc : c.length < bufSize
          · simp [readLoop, hc]
          · simp [readLoop, hc]
      | cons d ds =>
          have hdrop : (c :: d :: ds).dropLast = c :: (d :: ds).dropLast := rfl
          have hcl : c.length = bufSize := by
            apply h2
            rw [hdrop]
            exact List.mem_cons_self c _
          have hlt : ¬ (c.length < bufSize) := by omega
          rw [List.map_cons, List.cons_append]
          conv_lhs => rw [readLoop]
          rw [if_neg hlt]
          rw [ih (by simp)
              (fun x hx => h2 x (by rw [hdrop]; exact List.mem_cons_of_mem c hx))]
          simp

/-- The read loop over the same bytes delivered in a single read
followed by end-of-stream. -/
theorem readLoop_single (bs : List Nat) :
    readLoop [(bs, none), ([], some .eof)] [] = some (.ok bs) := by
  by_cases hb : bs.length < bufSize
  · simp [readLoop, hb]
  · simp [readLoop, hb]

/-- Inversion for a successful `CheckServerVersion`: under the
equality-based comparison, success forces the parsed major and minor
to equal the configured requirement exactly. -/
theorem checkServerVersion_ok_inv (minMajor minMinor : Int) (v : String)
    (h : (checkServerVersion minMajor minMinor v).outcome = .ok) :
    majorOf v = some minMajor ∧ minorOf v = some minMinor := by
  unfold checkServerVersion at h
  by_cases hv : v = ""
  · rw [if_pos hv] at h
    simp at h
  · rw [if_neg hv] at h
    simp only at h
    split at h
    next hmaj => simp at h
    next M hmaj =>
      split at h
      next h1 => simp at h
      next ms h1 =>
        split at h
        next hmin => simp at h
        next m hmin =>
          split at h
          next hcond => simp at h
          next hcond =>
            push_neg at hcond
            obtain ⟨hM, hm⟩ := hcond
            constructor
            · unfold majorOf
              rw [hmaj, hM]
            · unfold minorOf
              rw [h1]
              show goAtoi ms = some minMinor
              rw [hmin, hm hM]

theorem tokens_no_boundaries (flagTok : String) (n : Int)
    (hb : flagTok ≠ "--boundaries") (hba : flagTok ≠ "--boundaries-action")
    (hif : flagTok ≠ "--ignore-floating") :
    ("--boundaries" ∉ [flagTok, goSprintfInt n]) ∧
    ("--boundaries-action" ∉ [flagTok, goSprintfInt n]) ∧
    ("--ignore-floating" ∉ [flagTok, goSprintfInt n]) := by
  refine ⟨?_, ?_, ?_⟩ <;>
  · intro hmem
    rcases List.mem_cons.mp hmem with h | h
    · first
        | exact hb h.symm
        | exact hba h.symm
        | exact hif h.symm
    · have h2 := List.mem_singleton.mp h
      exact goSprintfInt_ne_ddash n _ _ rfl h2.symm

theorem tokens_with_ignore (flagTok : String) (n : Int)
    (hb : flagTok ≠ "--boundaries") (hba : flagTok ≠ "--boundaries-action") :
    ("--boundaries" ∉ [flagTok, goSprintfInt n, "--ignore-floating"]) ∧
    ("--boundaries-action" ∉ [flagTok, goSprintfInt n, "--ignore-floating"]) ∧
    ("--ignore-floating" ∈ [flagTok, goSprintfInt n, "--ignore-floating"]) := by
  refine ⟨?_, ?_, by simp⟩ <;>
  · intro hmem
    rcases List.mem_cons.mp hmem with h | h
    · first
        | exact hb h.symm
        | exact hba h.symm
    · rcases List.mem_cons.mp h with h2 | h2
      · exact goSprintfInt_ne_ddash n _ _ rfl h2.symm
      · have h3 := List.mem_singleton.mp h2
        exact absurd h3 (by decide)

/-! ## Claim theorems -/

/-- Claim C1, evaluated on the code as written: with the requirement
pair (0, 20), `CheckServerVersion` passes "0.20.0-beta x" and rejects
"0.19.0-beta x" and "1.0.0-beta x" with the identity-matchable
version-mismatch error — but, contrary to the claim (and to the
repository tests), it also rejects "0.25.0-beta x", because the
minor component is compared with `!=` rather than `<`. -/
theorem checkServerVersion_required_0_20_table :
    checkServerVersion 0 20 "0.20.0-beta x" = { warned := false, outcome := .ok } ∧
    checkServerVersion 0 20 "0.25.0-beta x"
      = { warned := false, outcome := .err (.versionMismatch 0 20 "0.25.0") } ∧
    checkServerVersion 0 20 "0.19.0-beta x"
      = { warned := false, outcome := .err (.versionMismatch 0 20 "0.19.0") } ∧
    checkServerVersion 0 20 "1.0.0-beta x"
      = { warned := false, outcome := .err (.versionMismatch 0 20 "1.0.0") } ∧
    goErrIsVersionSentinel (.versionMismatch 0 20 "0.19.0") = true ∧
    goErrIsVersionSentinel (.versionMismatch 0 20 "1.0.0") = true := by
  decide

/-- Claim C2 counterexample: on the non-empty server version "0",
whose part before the first `-` splits into a single component,
`CheckServerVersion` prints the format warning and then fails
abnormally (the Go code panics on the out-of-range access
`versionParts[1]`), refuting the claim that it never fails abnormally
on such inputs. -/
theorem checkServerVersion_single_component_panics :
    (checkServerVersion 0 20 "0").warned = true ∧
    (checkServerVersion 0 20 "0").outcome = .panicked := by
  decide

/-- Claim C2 (amended): for every non-empty server version string
whose portion before the first `-` splits into fewer than two
components, `CheckServerVersion` emits the non-fatal format warning
and then returns a hard parse error when the major component fails
integer parsing — but when the major component parses, it fails
abnormally (out-of-range panic on the missing minor component) rather
than proceeding. -/
theorem checkServerVersion_short_format (minMajor minMinor : Int) (v : String)
    (hne : ¬ v = "") (hshort : (versionComponents v).length < 2) :
    (checkServerVersion minMajor minMinor v).warned = true ∧
    (majorOf v = none →
      (checkServerVersion minMajor minMinor v).outcome
        = .err (.str ("failed to parse major version from " ++ v))) ∧
    (∀ i, majorOf v = some i →
      (checkServerVersion minMajor minMinor v).outcome = .panicked) := by
  have hnone : (versionComponents v)[1]? = none := List.getElem?_eq_none (by omega)
  have key : checkServerVersion minMajor minMinor v =
      { warned := true,
        outcome :=
          match goAtoi ((versionComponents v).headD "") with
          | none => .err (.str ("failed to parse major version from " ++ v))
          | some _ => .panicked } := by
    unfold checkServerVersion
    rw [if_neg hne]
    simp only
    rcases hmaj : goAtoi ((versionComponents v).headD "") with _ | M
    · simp [hshort]
    · simp [hnone, hshort]
  refine ⟨by rw [key], ?_, ?_⟩
  · intro hm
    rw [key]
    unfold majorOf at hm
    simp only
    rw [hm]
  · intro i hm
    rw [key]
    unfold majorOf at hm
    simp only
    rw [hm]

/-- Claim C2 witness: the amended statement instantiated at
requirement (0, 20) and server version "0" (single component, parse
succeeds, so the panic branch is reached). -/
theorem checkServerVersion_short_format_witness :
    (checkServerVersion 0 20 "0").warned = true ∧
    (majorOf "0" = none →
      (checkServerVersion 0 20 "0").outcome
        = .err (.str ("failed to parse major version from " ++ "0"))) ∧
    (∀ i, majorOf "0" = some i → (checkServerVersion 0 20 "0").outcome = .panicked) :=
  checkServerVersion_short_format 0 20 "0" (by decide) (by decide)

/-- Claim C8: with both `Stdin` and `NoStdin` set,
`MoveWindowToWorkspaceWithOpts` returns the mutual-exclusion error
and performs no transport call (its call trace is empty), regardless
of every other argument. -/
theorem moveWindow_stdin_exclusivity (send : SendFn) (args : MoveWindowToWorkspaceArgs)
    (opts : MoveWindowToWorkspaceOpts) (h1 : opts.Stdin = true) (h2 : opts.NoStdin = true) :
    moveWindowToWorkspaceWithOpts send args opts
      = (.error (.str "cannot specify both --stdin and --no-stdin options"), []) := by
  unfold moveWindowToWorkspaceWithOpts
  rw [h1, h2]
  rfl

/-- Claim C8 witness: the statement instantiated with a transport
that would succeed, a concrete workspace, and both stdin options. -/
theorem moveWindow_stdin_exclusivity_witness :
    moveWindowToWorkspaceWithOpts
        (fun _ _ => .ok { serverVersion := "", stdErr := "", stdOut := "", exitCode := 0 })
        { WorkspaceName := "ws" }
        { WindowID := some 7, FocusFollowsWindow := true, FailIfNoop := true,
          WrapAround := true, Stdin := true, NoStdin := true }
      = (.error (.str "cannot specify both --stdin and --no-stdin options"), []) :=
  moveWindow_stdin_exclusivity _ _ _ rfl rfl

/-- Claim C9: after a successful decode, `SendCommand` converts a
non-zero exit code into the error carrying the code and the stderr
text; with a zero exit code but non-empty stderr it returns the
distinct stderr-only error; it returns the envelope as success
exactly when the exit code is zero and stderr is empty; the two error
shapes are never equal (so an exit code 1 with non-empty stderr
surfaces the exit-code-flavoured error — the exit code is checked
first); and the full `SendCommand` model hands every successfully
decoded envelope to exactly this policy. -/
theorem sendCommand_response_policy (r : Response) :
    (r.exitCode ≠ 0 → sendCommandPolicy r = .error (.exitCodeFailure r.exitCode r.stdErr)) ∧
    (r.exitCode = 0 → r.stdErr ≠ "" → sendCommandPolicy r = .error (.stderrFailure r.stdErr)) ∧
    (sendCommandPolicy r = .ok r ↔ (r.exitCode = 0 ∧ r.stdErr = "")) ∧
    (∀ (c : Int) (s t : String), GoErr.exitCodeFailure c s ≠ GoErr.stderrFailure t) ∧
    (∀ (stream : List ReadEvent) (dec : List Nat → Option Response) (bytes : List Nat),
      readLoop stream [] = some (.ok bytes) → dec bytes = some r →
      sendCommandModel true none stream dec = some (sendCommandPolicy r)) := by
  refine ⟨?_, ?_, ?_, ?_, ?_⟩
  · intro h
    simp [sendCommandPolicy, h]
  · intro h1 h2
    simp [sendCommandPolicy, h1, h2]
  · constructor
    · intro h
      by_cases h1 : r.exitCode = 0
      · by_cases h2 : r.stdErr = ""
        · exact ⟨h1, h2⟩
        · simp [sendCommandPolicy, h1, h2] at h
      · simp [sendCommandPolicy, h1] at h
    · rintro ⟨h1, h2⟩
      simp [sendCommandPolicy, h1, h2]
  · intro c s t h
    exact GoErr.noConfusion h
  · intro stream dec bytes hrl hdec
    simp [sendCommandModel, hrl, hdec]

/-- Claim C9 witness: the policy instantiated on an envelope with
exit code 1 and non-empty stderr, surfacing the exit-code-flavoured
error. -/
theorem sendCommand_response_policy_witness :
    ((1 : Int) ≠ 0 →
      sendCommandPolicy { serverVersion := "", stdErr := "boom", stdOut := "", exitCode := 1 }
        = .error (.exitCodeFailure 1 "boom")) ∧
    sendCommandPolicy { serverVersion := "", stdErr := "boom", stdOut := "", exitCode := 1 }
      = .error (.exitCodeFailure 1 "boom") :=
  ⟨fun _ => (sendCommand_response_policy
      { serverVersion := "", stdErr := "boom", stdOut := "", exitCode := 1 }).1 (by decide),
   (sendCommand_response_policy
      { serverVersion := "", stdErr := "boom", stdOut := "", exitCode := 1 }).1 (by decide)⟩

/-- Claim C6: `MoveWorkspaceToMonitor` sends a command only when
exactly one of Direction, Order, Patterns is set: with none set it
fails with the "must specify exactly one of" error before any
transport call, with more than one set it fails with the distinct
"cannot specify multiple modes" error before any transport call, and
whenever its transport trace is non-empty the mode count is exactly
one. -/
theorem moveMonitor_mode_exclusivity (send : SendFn)
    (args : MoveWorkspaceToMonitorArgs) (opts : MoveWorkspaceToMonitorOpts) :
    (monitorModesCount args = 0 →
       moveWorkspaceToMonitor send args opts
         = (.error (.str "must specify exactly one of: Direction, Order, or Patterns"), [])) ∧
    (monitorModesCount args ≥ 2 →
       moveWorkspaceToMonitor send args opts
         = (.error (.str "cannot specify multiple modes; must specify exactly one of: Direction, Order, or Patterns"), [])) ∧
    ((moveWorkspaceToMonitor send args opts).2 ≠ [] → monitorModesCount args = 1) := by
  refine ⟨?_, ?_, ?_⟩
  · intro h
    unfold moveWorkspaceToMonitor
    rw [if_pos h]
  · intro h
    unfold moveWorkspaceToMonitor
    rw [if_neg (by omega), if_pos (by omega)]
  · intro h
    by_cases h0 : monitorModesCount args = 0
    · unfold moveWorkspaceToMonitor at h
      rw [if_pos h0] at h
      simp at h
    · by_cases h1 : monitorModesCount args > 1
      · unfold moveWorkspaceToMonitor at h
        rw [if_neg h0, if_pos h1] at h
        simp at h
      · omega

/-- Claim C6 witness: the zero-mode and two-mode instances at
concrete arguments (direction "left" together with order "next", and
all three empty). -/
theorem moveMonitor_mode_exclusivity_witness :
    moveWorkspaceToMonitor
        (fun _ _ => .ok { serverVersion := "", stdErr := "", stdOut := "", exitCode := 0 })
        { Direction := "", Order := "", Patterns := [] } { Workspace := none, WrapAround := false }
      = (.error (.str "must specify exactly one of: Direction, Order, or Patterns"), []) ∧
    moveWorkspaceToMonitor
        (fun _ _ => .ok { serverVersion := "", stdErr := "", stdOut := "", exitCode := 0 })
        { Direction := "left", Order := "next", Patterns := [] } { Workspace := none, WrapAround := false }
      = (.error (.str "cannot specify multiple modes; must specify exactly one of: Direction, Order, or Patterns"), []) :=
  ⟨(moveMonitor_mode_exclusivity _ _ _).1 (by decide),
   (moveMonitor_mode_exclusivity _ _ _).2.1 (by decide)⟩

/-- Claim C7: `SetFocusWithOpts` (and therefore `SetFocus`, which
delegates to it with zero-value options) sends a command only when
exactly one of WindowID, Direction, DFSDirection, DFSIndex is set:
with zero set it fails with "exactly one of WindowID, Direction,
DFSDirection, or DFSIndex must be set", with two or more set it fails
with the distinct "only one of WindowID, Direction, DFSDirection, or
DFSIndex can be set", both before any transport call. -/
theorem setFocus_mode_exclusivity (send : SendFn) (args : SetFocusArgs) (opts : SetFocusOpts) :
    (focusModesCount args = 0 →
       setFocusWithOpts send args opts
         = (.error (.str "exactly one of WindowID, Direction, DFSDirection, or DFSIndex must be set"), [])) ∧
    (focusModesCount args ≥ 2 →
       setFocusWithOpts send args opts
         = (.error (.str "only one of WindowID, Direction, DFSDirection, or DFSIndex can be set"), [])) ∧
    ((setFocusWithOpts send args opts).2 ≠ [] → focusModesCount args = 1) ∧
    setFocus send args = setFocusWithOpts send args
      { IgnoreFloating := false, Boundaries := none, BoundariesAction := none } := by
  refine ⟨?_, ?_, ?_, rfl⟩
  · intro h
    have hb : setFocusBuild args opts
        = .error (.str "exactly one of WindowID, Direction, DFSDirection, or DFSIndex must be set") := by
      unfold setFocusBuild
      rw [if_pos h]
    unfold setFocusWithOpts
    rw [hb]
  · intro h
    have hb : setFocusBuild args opts
        = .error (.str "only one of WindowID, Direction, DFSDirection, or DFSIndex can be set") := by
      unfold setFocusBuild
      rw [if_neg (by omega), if_pos (by omega)]
    unfold setFocusWithOpts
    rw [hb]
  · intro h
    rcases hb : setFocusBuild args opts with e | vm
    · unfold setFocusWithOpts at h
      rw [hb] at h
      simp at h
    · by_cases h0 : focusModesCount args = 0
      · exfalso
        unfold setFocusBuild at hb
        rw [if_pos h0] at hb
        cases hb
      · by_cases h1 : focusModesCount args > 1
        · exfalso
          unfold setFocusBuild at hb
          rw [if_neg h0, if_pos h1] at hb
          cases hb
        · omega

/-- Claim C7 witness: the zero-mode and two-mode instances at
concrete arguments. -/
theorem setFocus_mode_exclusivity_witness :
    setFocusWithOpts
        (fun _ _ => .ok { serverVersion := "", stdErr := "", stdOut := "", exitCode := 0 })
        { WindowID := none, Direction := none, DFSDirection := none, DFSIndex := none }
        { IgnoreFloating := false, Boundaries := none, BoundariesAction := none }
      = (.error (.str "exactly one of WindowID, Direction, DFSDirection, or DFSIndex must be set"), []) ∧
    setFocusWithOpts
        (fun _ _ => .ok { serverVersion := "", stdErr := "", stdOut := "", exitCode := 0 })
        { WindowID := some 3, Direction := some "left", DFSDirection := none, DFSIndex := none }
        { IgnoreFloating := false, Boundaries := none, BoundariesAction := none }
      = (.error (.str "only one of WindowID, Direction, DFSDirection, or DFSIndex can be set"), []) :=
  ⟨(setFocus_mode_exclusivity _ _ _).1 (by decide),
   (setFocus_mode_exclusivity _ _ _).2.1 (by decide)⟩

/-- Claim C10: every connection built by
`NewAeroSpaceSocketConnection` carries the fixed requirement
(MinMajorVersion, MinMinorVersion) = (1, 0); consequently, under the
equality-based comparison of `CheckServerVersion`, such a connection
accepts only server versions whose parsed major is 1 and minor is 0,
and in particular rejects every version with major 0. -/
theorem newConnection_default_requirement (path : String) (dialErr : Option GoErr)
    (c : AeroSpaceSocketConnection)
    (h : newAeroSpaceSocketConnection path dialErr = .ok c) :
    c.MinMajorVersion = 1 ∧ c.MinMinorVersion = 0 ∧
    (∀ v, (checkServerVersion c.MinMajorVersion c.MinMinorVersion v).outcome = .ok →
        majorOf v = some 1 ∧ minorOf v = some 0) ∧
    (∀ v, majorOf v = some 0 →
        (checkServerVersion c.MinMajorVersion c.MinMinorVersion v).outcome ≠ .ok) := by
  have hc : c.MinMajorVersion = 1 ∧ c.MinMinorVersion = 0 := by
    unfold newAeroSpaceSocketConnection at h
    by_cases hp : path = ""
    · rw [if_pos hp] at h
      cases h
    · rw [if_neg hp] at h
      cases dialErr with
      | some e => exact Except.noConfusion h
      | none =>
          cases h
          exact ⟨rfl, rfl⟩
  obtain ⟨h1, h2⟩ := hc
  refine ⟨h1, h2, ?_, ?_⟩
  · intro v hok
    rw [h1, h2] at hok
    exact checkServerVersion_ok_inv 1 0 v hok
  · intro v hm hok
    rw [h1, h2] at hok
    have hmaj := (checkServerVersion_ok_inv 1 0 v hok).1
    rw [hm] at hmaj
    simp at hmaj

/-- Claim C10 witness: the statement instantiated at a successful
construction over the path "/tmp/a.sock". -/
theorem newConnection_default_requirement_witness :
    (AeroSpaceSocketConnection.mk "/tmp/a.sock" 1 0).MinMajorVersion = 1 ∧
    (AeroSpaceSocketConnection.mk "/tmp/a.sock" 1 0).MinMinorVersion = 0 ∧
    (∀ v, (checkServerVersion (AeroSpaceSocketConnection.mk "/tmp/a.sock" 1 0).MinMajorVersion
            (AeroSpaceSocketConnection.mk "/tmp/a.sock" 1 0).MinMinorVersion v).outcome = .ok →
        majorOf v = some 1 ∧ minorOf v = some 0) ∧
    (∀ v, majorOf v = some 0 →
        (checkServerVersion (AeroSpaceSocketConnection.mk "/tmp/a.sock" 1 0).MinMajorVersion
            (AeroSpaceSocketConnection.mk "/tmp/a.sock" 1 0).MinMinorVersion v).outcome ≠ .ok) :=
  newConnection_default_requirement "/tmp/a.sock" none _ rfl

/-- Claim C3 counterexample: with a WindowID-mode call and
`IgnoreFloating` set, the emitted argument vector does contain the
"--ignore-floating" token (the Go code appends it unconditionally;
only `--boundaries` and `--boundaries-action` are mode-gated), and
that vector is exactly what reaches the transport. -/
theorem setFocus_ignore_floating_emitted :
    setFocusBuild { WindowID := some 5, Direction := none, DFSDirection := none, DFSIndex := none }
        { IgnoreFloating := true, Boundaries := none, BoundariesAction := none }
      = .ok (["--window-id", "5", "--ignore-floating"], "failed to focus window with ID 5") ∧
    "--ignore-floating" ∈ ["--window-id", "5", "--ignore-floating"] ∧
    (setFocusWithOpts (fun _ _ => .ok { serverVersion := "", stdErr := "", stdOut := "", exitCode := 0 })
        { WindowID := some 5, Direction := none, DFSDirection := none, DFSIndex := none }
        { IgnoreFloating := true, Boundaries := none, BoundariesAction := none }).2
      = [("focus", ["--window-id", "5", "--ignore-floating"])] :=
  ⟨rfl, by decide, rfl⟩

/-- Claim C3 (amended): in the WindowID and DFSIndex focus modes the
`Boundaries` and `BoundariesAction` options are silently dropped — no
"--boundaries" or "--boundaries-action" token is ever emitted — but
"--ignore-floating" is emitted exactly when `IgnoreFloating` is set,
in these modes as in the others. -/
theorem setFocus_id_modes_gating (args : SetFocusArgs) (opts : SetFocusOpts)
    (v : List String) (m : String)
    (hdir : args.Direction = none) (hdfs : args.DFSDirection = none)
    (hok : setFocusBuild args opts = .ok (v, m)) :
    "--boundaries" ∉ v ∧ "--boundaries-action" ∉ v ∧
    ("--ignore-floating" ∈ v ↔ opts.IgnoreFloating = true) := by
  obtain ⟨ifl, ob, oba⟩ := opts
  unfold setFocusBuild at hok
  rcases hw : args.WindowID with _ | w <;> rcases hi : args.DFSIndex with _ | i
  · exfalso
    rw [if_pos (by unfold focusModesCount; rw [hw, hdir, hdfs, hi]; rfl)] at hok
    cases hok
  · have h1 : focusModesCount args = 1 := by
      unfold focusModesCount
      rw [hw, hdir, hdfs, hi]
      rfl
    rw [if_neg (by omega), if_neg (by omega)] at hok
    simp only [hw, hdir, hdfs, hi] at hok
    rcases ob with _ | b <;> rcases oba with _ | ba <;> rcases ifl with _ | _ <;>
        simp at hok <;> obtain ⟨hv, hm2⟩ := hok <;> subst hv <;>
        first
          | exact ⟨(tokens_no_boundaries "--dfs-index" i (by decide) (by decide) (by decide)).1,
              (tokens_no_boundaries "--dfs-index" i (by decide) (by decide) (by decide)).2.1,
              iff_of_false
                (tokens_no_boundaries "--dfs-index" i (by decide) (by decide) (by decide)).2.2
                (by simp)⟩
          | exact ⟨(tokens_with_ignore "--dfs-index" i (by decide) (by decide)).1,
              (tokens_with_ignore "--dfs-index" i (by decide) (by decide)).2.1,
              iff_of_true (tokens_with_ignore "--dfs-index" i (by decide) (by decide)).2.2 rfl⟩
  · have h1 : focusModesCount args = 1 := by
      unfold focusModesCount
      rw [hw, hdir, hdfs, hi]
      rfl
    rw [if_neg (by omega), if_neg (by omega)] at hok
    simp only [hw, hdir, hdfs, hi] at hok
    rcases ob with _ | b <;> rcases oba with _ | ba <;> rcases ifl with _ | _ <;>
        simp at hok <;> obtain ⟨hv, hm2⟩ := hok <;> subst hv <;>
        first
          | exact ⟨(tokens_no_boundaries "--window-id" w (by decide) (by decide) (by decide)).1,
              (tokens_no_boundaries "--window-id" w (by decide) (by decide) (by decide)).2.1,
              iff_of_false
                (tokens_no_boundaries "--window-id" w (by decide) (by decide) (by decide)).2.2
                (by simp)⟩
          | exact ⟨(tokens_with_ignore "--window-id" w (by decide) (by decide)).1,
              (tokens_with_ignore "--window-id" w (by decide) (by decide)).2.1,
              iff_of_true (tokens_with_ignore "--window-id" w (by decide) (by decide)).2.2 rfl⟩
  · exfalso
    rw [if_neg (by unfold focusModesCount; rw [hw, hdir, hdfs, hi]; simp),
        if_pos (by unfold focusModesCount; rw [hw, hdir, hdfs, hi]; simp)] at hok
    cases hok

/-- Claim C3 witness: the amended statement instantiated at a
WindowID-mode call with every optional modifier set. -/
theorem setFocus_id_modes_gating_witness :
    "--boundaries" ∉ ["--window-id", "5", "--ignore-floating"] ∧
    "--boundaries-action" ∉ ["--window-id", "5", "--ignore-floating"] ∧
    ("--ignore-floating" ∈ ["--window-id", "5", "--ignore-floating"] ↔
      ({ IgnoreFloating := true, Boundaries := some "workspace",
         BoundariesAction := some "stop" } : SetFocusOpts).IgnoreFloating = true) :=
  setFocus_id_modes_gating
    { WindowID := some 5, Direction := none, DFSDirection := none, DFSIndex := none }
    { IgnoreFloating := true, Boundaries := some "workspace", BoundariesAction := some "stop" }
    ["--window-id", "5", "--ignore-floating"] "failed to focus window with ID 5"
    rfl rfl rfl

/-- Claim C4 counterexample: `windows.SetLayoutWithOpts` violates the
shared builder postcondition — when the transport returns a response
with exit code 1 and stderr "boom", it returns success (it discards
the response envelope and never examines the exit code), instead of a
domain error embedding the stderr text. -/
theorem setLayoutWithOpts_ignores_exit_code :
    setLayoutWithOpts
        (fun _ _ => .ok { serverVersion := "", stdErr := "boom", stdOut := "", exitCode := 1 })
        { Layouts := ["tiles"] } { WindowID := none }
      = (.ok (), [("layout", ["tiles"])]) :=
  rfl

/-- Claim C4 (amended): the shared postcondition — a response with a
non-zero exit code becomes a domain-specific error naming the
operation and embedding the daemon stderr text, and a transport error is
propagated to the caller (unchanged, except that the layout-package
`SetLayout` wraps it in its domain message) — holds for
`SetFocusWithOpts` (hence `SetFocus`), `layout.SetLayout`,
`MoveWindowToWorkspaceWithOpts`, and `MoveWorkspaceToMonitor`; it
does not hold for `windows.SetLayoutWithOpts`, which ignores the
response envelope entirely. -/
theorem builders_send_postcondition
    (r : Response) (hr : r.exitCode ≠ 0) (e : GoErr)
    (fargs : SetFocusArgs) (fopts : SetFocusOpts)
    (lay : List String) (lw : Option Int)
    (wargs : MoveWindowToWorkspaceArgs) (wopts : MoveWindowToWorkspaceOpts)
    (margs : MoveWorkspaceToMonitorArgs) (mopts : MoveWorkspaceToMonitorOpts) :
    (∀ v m, setFocusBuild fargs fopts = .ok (v, m) →
        (setFocusWithOpts (fun _ _ => .ok r) fargs fopts).1 = .error (.opFailure m r.stdErr) ∧
        (setFocusWithOpts (fun _ _ => .error e) fargs fopts).1 = .error e) ∧
    (lay ≠ [] →
        (layoutSetLayout (fun _ _ => .ok r) lay lw).1
          = .error (.opFailure ("failed to set layout(s) " ++ goSprintfStrSlice lay) r.stdErr) ∧
        (layoutSetLayout (fun _ _ => .error e) lay lw).1
          = .error (.wrap ("failed to set layout(s) " ++ goSprintfStrSlice lay ++ ": ") e)) ∧
    (¬ (wopts.Stdin = true ∧ wopts.NoStdin = true) →
        (moveWindowToWorkspaceWithOpts (fun _ _ => .ok r) wargs wopts).1
          = .error (.opFailure "failed to move window to workspace" r.stdErr) ∧
        (moveWindowToWorkspaceWithOpts (fun _ _ => .error e) wargs wopts).1 = .error e) ∧
    ((moveWorkspaceToMonitor (fun _ _ => .ok r) margs mopts).2 ≠ [] →
        (moveWorkspaceToMonitor (fun _ _ => .ok r) margs mopts).1
          = .error (.opFailure "failed to move workspace to monitor" r.stdErr)) ∧
    ((moveWorkspaceToMonitor (fun _ _ => .error e) margs mopts).2 ≠ [] →
        (moveWorkspaceToMonitor (fun _ _ => .error e) margs mopts).1 = .error e) := by
  refine ⟨?_, ?_, ?_, ?_, ?_⟩
  · intro v m hok
    constructor
    · unfold setFocusWithOpts
      rw [hok]
      simp [hr]
    · unfold setFocusWithOpts
      rw [hok]
  · intro hl
    constructor
    · unfold layoutSetLayout
      rw [if_neg hl]
      simp [hr]
    · unfold layoutSetLayout
      rw [if_neg hl]
  · intro hw
    have hb : (wopts.Stdin && wopts.NoStdin) = false := by
      cases hS : wopts.Stdin <;> cases hN : wopts.NoStdin <;> simp_all
    constructor
    · unfold moveWindowToWorkspaceWithOpts
      rw [hb]
      simp [hr]
    · unfold moveWindowToWorkspaceWithOpts
      rw [hb]
      rfl
  · intro h
    unfold moveWorkspaceToMonitor at h ⊢
    split_ifs at h ⊢ <;> first | exact absurd rfl h | simp [hr]
  · intro h
    unfold moveWorkspaceToMonitor at h ⊢
    split_ifs at h ⊢ <;> first | exact absurd rfl h | rfl

/-- Claim C4 witness: the amended statement exercised at concrete
inputs — a focus call by window id, a one-element layout list, a
window move, and a direction-mode monitor move, against a transport
answering exit code 1 with stderr "boom" and against a transport
failing with a connection error. -/
theorem builders_send_postcondition_witness :
    (setFocusWithOpts
        (fun _ _ => .ok { serverVersion := "", stdErr := "boom", stdOut := "", exitCode := 1 })
        { WindowID := some 1, Direction := none, DFSDirection := none, DFSIndex := none }
        { IgnoreFloating := false, Boundaries := none, BoundariesAction := none }).1
      = .error (.opFailure "failed to focus window with ID 1" "boom") ∧
    (layoutSetLayout
        (fun _ _ => .ok { serverVersion := "", stdErr := "boom", stdOut := "", exitCode := 1 })
        ["tiles"] none).1
      = .error (.opFailure ("failed to set layout(s) " ++ goSprintfStrSlice ["tiles"]) "boom") ∧
    (moveWindowToWorkspaceWithOpts (fun _ _ => .error (.str "conn down"))
        { WorkspaceName := "ws" }
        { WindowID := none, FocusFollowsWindow := false, FailIfNoop := false,
          WrapAround := false, Stdin := false, NoStdin := false }).1
      = .error (.str "conn down") ∧
    (moveWorkspaceToMonitor
        (fun _ _ => .ok { serverVersion := "", stdErr := "boom", stdOut := "", exitCode := 1 })
        { Direction := "left", Order := "", Patterns := [] }
        { Workspace := none, WrapAround := false }).1
      = .error (.opFailure "failed to move workspace to monitor" "boom") := by
  have h := builders_send_postcondition
    { serverVersion := "", stdErr := "boom", stdOut := "", exitCode := 1 } (by decide)
    (.str "conn down")
    { WindowID := some 1, Direction := none, DFSDirection := none, DFSIndex := none }
    { IgnoreFloating := false, Boundaries := none, BoundariesAction := none }
    ["tiles"] none
    { WorkspaceName := "ws" }
    { WindowID := none, FocusFollowsWindow := false, FailIfNoop := false,
      WrapAround := false, Stdin := false, NoStdin := false }
    { Direction := "left", Order := "", Patterns := [] }
    { Workspace := none, WrapAround := false }
  exact ⟨(h.1 _ _ rfl).1, (h.2.1 (by decide)).1, (h.2.2.1 (by decide)).2,
         h.2.2.2.1 (by decide)⟩

/-- Claim C5: the read-accumulation loop of `SendCommand` reassembles a
response delivered across N reads (all but the last filling the
offered buffer, the stream then signalling end-of-stream) into
exactly the concatenation of the chunks, so the decoded response
envelope equals the one obtained when the same bytes arrive in a
single read. -/
theorem sendCommand_chunked_read (chunks : List (List Nat)) (h1 : chunks ≠ [])
    (h2 : ∀ c ∈ chunks.dropLast, c.length = bufSize)
    (dec : List Nat → Option Response) :
    readLoop (chunks.map (fun c => (c, (none : Option IOSignal))) ++ [([], some .eof)]) []
      = some (.ok chunks.flatten) ∧
    sendCommandModel true none (chunks.map (fun c => (c, (none : Option IOSignal))) ++ [([], some .eof)]) dec
      = sendCommandModel true none [(chunks.flatten, none), ([], some .eof)] dec := by
  have hc := readLoop_chunked chunks h1 h2 []
  rw [List.nil_append] at hc
  refine ⟨hc, ?_⟩
  have hs := readLoop_single chunks.flatten
  simp only [sendCommandModel, Bool.not_true, Bool.false_eq_true, if_false, hc, hs]

/-- Claim C5 witness: a two-chunk delivery — a full 4096-byte buffer
followed by a short final read — decodes identically to the
single-read delivery of the same bytes. -/
theorem sendCommand_chunked_read_witness :
    readLoop (([List.replicate bufSize 0, [1, 2, 3]].map (fun c => (c, (none : Option IOSignal))))
        ++ [([], some .eof)]) []
      = some (.ok ([List.replicate bufSize 0, [1, 2, 3]].flatten)) ∧
    sendCommandModel true none
        (([List.replicate bufSize 0, [1, 2, 3]].map (fun c => (c, (none : Option IOSignal))))
          ++ [([], some .eof)]) (fun _ => none)
      = sendCommandModel true none
        [([List.replicate bufSize 0, [1, 2, 3]].flatten, none), ([], some .eof)]
        (fun _ => none) :=
  sendCommand_chunked_read [List.replicate bufSize 0, [1, 2, 3]] (by simp)
    (by
      intro c hc
      rw [show ([List.replicate bufSize 0, [1, 2, 3]] : List (List Nat)).dropLast
            = [List.replicate bufSize 0] from rfl] at hc
      rw [List.mem_singleton] at hc
      rw [hc]
      exact List.length_replicate bufSize 0)
    (fun _ => none)

end AerospaceIPC
